import Mathlib

/-!
Verification development for the Protei_Bulk_CPP SMPP gateway.

The definitions below are a shallow embedding of the C++ sources:

* `SmppCommand` and its codes embed the `SmppCommand` enum of
  `include/protei/protocols/smpp_pdu.hpp`.
* `SmppServer` embeds the server stub of
  `include/protei/protocols/smpp_server.hpp`.
* `RedisClient.*` embed the operations of `src/core/redis_client.cpp`.
* `load_db_config`, `generate_secret_key` and `Config.construct` embed
  `src/core/config.cpp`.
* `Database.execute` / `Database.transaction` embed
  `include/protei/core/database.hpp` and `src/core/database.cpp`.
* The PDU codec, the window manager and the session legality rule have
  declarations but no implementation in the sources; they are modelled
  from the specification text, as marked on each definition.

Bytes are modelled as `Nat` values below 256, byte buffers as `List Nat`,
and C++ exceptions as `Except` / explicit outcome values.
-/

/-- SMPP command identifiers, embedding the `SmppCommand` enum of
`smpp_pdu.hpp` (one constructor per enumerator, same spelling). -/
inductive SmppCommand where
  | BIND_RECEIVER
  | BIND_TRANSMITTER
  | BIND_TRANSCEIVER
  | BIND_RECEIVER_RESP
  | BIND_TRANSMITTER_RESP
  | BIND_TRANSCEIVER_RESP
  | SUBMIT_SM
  | SUBMIT_SM_RESP
  | DELIVER_SM
  | DELIVER_SM_RESP
  | UNBIND
  | UNBIND_RESP
  | ENQUIRE_LINK
  | ENQUIRE_LINK_RESP
  | SUBMIT_MULTI
  | SUBMIT_MULTI_RESP
  | QUERY_SM
  | QUERY_SM_RESP
  | CANCEL_SM
  | CANCEL_SM_RESP
  deriving DecidableEq, Repr

/-- Numeric value of each enumerator, exactly as written in `smpp_pdu.hpp`. -/
def SmppCommand.toCode : SmppCommand → Nat
  | .BIND_RECEIVER => 0x00000001
  | .BIND_TRANSMITTER => 0x00000002
  | .BIND_TRANSCEIVER => 0x00000009
  | .BIND_RECEIVER_RESP => 0x80000001
  | .BIND_TRANSMITTER_RESP => 0x80000002
  | .BIND_TRANSCEIVER_RESP => 0x80000009
  | .SUBMIT_SM => 0x00000004
  | .SUBMIT_SM_RESP => 0x80000004
  | .DELIVER_SM => 0x00000005
  | .DELIVER_SM_RESP => 0x80000005
  | .UNBIND => 0x00000006
  | .UNBIND_RESP => 0x80000006
  | .ENQUIRE_LINK => 0x00000015
  | .ENQUIRE_LINK_RESP => 0x80000015
  | .SUBMIT_MULTI => 0x00000021
  | .SUBMIT_MULTI_RESP => 0x80000021
  | .QUERY_SM => 0x00000003
  | .QUERY_SM_RESP => 0x80000003
  | .CANCEL_SM => 0x00000008
  | .CANCEL_SM_RESP => 0x80000008

/-- All enumerators of `SmppCommand`, in declaration order. -/
def SmppCommand.all : List SmppCommand :=
  [.BIND_RECEIVER, .BIND_TRANSMITTER, .BIND_TRANSCEIVER,
   .BIND_RECEIVER_RESP, .BIND_TRANSMITTER_RESP, .BIND_TRANSCEIVER_RESP,
   .SUBMIT_SM, .SUBMIT_SM_RESP, .DELIVER_SM, .DELIVER_SM_RESP,
   .UNBIND, .UNBIND_RESP, .ENQUIRE_LINK, .ENQUIRE_LINK_RESP,
   .SUBMIT_MULTI, .SUBMIT_MULTI_RESP, .QUERY_SM, .QUERY_SM_RESP,
   .CANCEL_SM, .CANCEL_SM_RESP]

/-- The program's set of SMPP command identifier values. -/
def smppCommandCodes : List Nat := SmppCommand.all.map SmppCommand.toCode

/-- The command-identifier set exactly as claim C4 states it: the named
request IDs together with the other bind variants, their response
counterparts obtained by setting the `0x80000000` bit, and `generic_nack`
(whose SMPP v3.4 value is `0x80000000`). This definition follows the
claim's words, for comparison with `smppCommandCodes`, which follows the
source. -/
def c4ClaimedCodes : List Nat :=
  [0x00000001, 0x00000002, 0x00000009, 0x00000004, 0x00000005,
   0x00000006, 0x00000015,
   0x80000001, 0x80000002, 0x80000009, 0x80000004, 0x80000005,
   0x80000006, 0x80000015,
   0x80000000]

/-- The request identifiers actually enumerated in `smpp_pdu.hpp`. -/
def c4RequestCodes : List Nat :=
  [0x00000001, 0x00000002, 0x00000009, 0x00000004, 0x00000005,
   0x00000006, 0x00000015, 0x00000021, 0x00000003, 0x00000008]

/-- C4 counterexample: the program's command-identifier set differs from the
set the claim enumerates.  `generic_nack` (`0x80000000`) is in the claimed
set but absent from the program's enum, while `SUBMIT_MULTI` (`0x00000021`)
is in the program's enum but outside the claimed set. -/
theorem c4_command_set_counterexample :
    smppCommandCodes.toFinset ≠ c4ClaimedCodes.toFinset ∧
    0x80000000 ∈ c4ClaimedCodes ∧
    0x80000000 ∉ smppCommandCodes ∧
    0x00000021 ∈ smppCommandCodes ∧
    0x00000021 ∉ c4ClaimedCodes := by
  decide

/-- C4 (amended): the program's set of SMPP command identifiers contains
exactly the enumerated request IDs (`bind_receiver=1`, `bind_transmitter=2`,
`bind_transceiver=9`, `query_sm=3`, `submit_sm=4`, `deliver_sm=5`,
`unbind=6`, `cancel_sm=8`, `enquire_link=0x15`, `submit_multi=0x21`) and
their response counterparts obtained by setting the `0x80000000` bit; no
`generic_nack` identifier is defined. -/
theorem smpp_command_codes_exact :
    (∀ c : SmppCommand, c ∈ SmppCommand.all) ∧
    smppCommandCodes.Perm
      (c4RequestCodes ++ c4RequestCodes.map (fun n => 0x80000000 + n)) ∧
    0x80000000 ∉ smppCommandCodes := by
  refine ⟨fun c => by cases c <;> decide, by decide, by decide⟩

/-- Opaque handles standing for the `Database&` and `RedisClient&`
references held by `RoutingService` (`routing_service.hpp`). -/
structure RoutingService where
  db_ : Nat
  redis_ : Nat
  deriving DecidableEq, Repr

/-- Observable actions an SMPP server method could perform: socket I/O or
handling a PDU.  The stub methods of `smpp_server.hpp` perform none. -/
inductive ServerAction where
  | sock_write (bytes : List Nat)
  | sock_read (bytes : List Nat)
  | handle_pdu (command_id : Nat)
  deriving DecidableEq, Repr

/-- State of the `SmppServer` class of `smpp_server.hpp`: its three data
members. -/
structure SmppServer where
  host_ : String
  port_ : Int
  routing_service_ : Option RoutingService
  deriving DecidableEq, Repr

/-- Embeds `SmppServer::start`, whose body in `smpp_server.hpp` is empty:
the state is untouched and no action is performed. -/
def SmppServer.start (s : SmppServer) : SmppServer × List ServerAction :=
  (s, [])

/-- Embeds `SmppServer::stop`, whose body in `smpp_server.hpp` is empty. -/
def SmppServer.stop (s : SmppServer) : SmppServer × List ServerAction :=
  (s, [])

/-- C6: for every `SmppServer` object, `start` and `stop` leave `host_`,
`port_` and `routing_service_` unchanged, perform no I/O and handle no
PDUs. -/
theorem smpp_server_start_stop_noop (s : SmppServer) :
    (s.start.1.host_ = s.host_ ∧ s.start.1.port_ = s.port_ ∧
     s.start.1.routing_service_ = s.routing_service_ ∧ s.start.2 = []) ∧
    (s.stop.1.host_ = s.host_ ∧ s.stop.1.port_ = s.port_ ∧
     s.stop.1.routing_service_ = s.routing_service_ ∧ s.stop.2 = []) :=
  ⟨⟨rfl, rfl, rfl, rfl⟩, ⟨rfl, rfl, rfl, rfl⟩⟩

/-- Outcome of a call into the underlying `sw::redis::Redis` handle: it
either returns a value or throws. -/
inductive RedisOutcome (α : Type) where
  | ok (a : α)
  | thrown

/-- Embeds `RedisClient::set` (`redis_client.cpp`): first argument is the
`initialized_` flag, second the outcome of the underlying call. -/
def RedisClient.set : Bool → RedisOutcome Unit → Bool
  | false, _ => false
  | true, .ok _ => true
  | true, .thrown => false

/-- Embeds the TTL overload of `RedisClient::set`. -/
def RedisClient.setTtl : Bool → RedisOutcome Unit → Bool
  | false, _ => false
  | true, .ok _ => true
  | true, .thrown => false

/-- Embeds `RedisClient::get`. -/
def RedisClient.get : Bool → RedisOutcome (Option String) → Option String
  | false, _ => none
  | true, .ok v => v
  | true, .thrown => none

/-- Embeds `RedisClient::del` (`return redis_->del(key) > 0`). -/
def RedisClient.del : Bool → RedisOutcome Int → Bool
  | false, _ => false
  | true, .ok n => decide (0 < n)
  | true, .thrown => false

/-- Embeds `RedisClient::exists` (named `exists_key` here because `exists`
is reserved in Lean). -/
def RedisClient.exists_key : Bool → RedisOutcome Int → Bool
  | false, _ => false
  | true, .ok n => decide (0 < n)
  | true, .thrown => false

/-- Embeds `RedisClient::hset`. -/
def RedisClient.hset : Bool → RedisOutcome Bool → Bool
  | false, _ => false
  | true, .ok b => b
  | true, .thrown => false

/-- Embeds `RedisClient::hget`. -/
def RedisClient.hget : Bool → RedisOutcome (Option String) → Option String
  | false, _ => none
  | true, .ok v => v
  | true, .thrown => none

/-- Embeds `RedisClient::hgetall`; the `unordered_map` result is modelled
as an association list. -/
def RedisClient.hgetall : Bool → RedisOutcome (List (String × String)) →
    List (String × String)
  | false, _ => []
  | true, .ok l => l
  | true, .thrown => []

/-- Embeds `RedisClient::hdel` (`return redis_->hdel(key, field) > 0`). -/
def RedisClient.hdel : Bool → RedisOutcome Int → Bool
  | false, _ => false
  | true, .ok n => decide (0 < n)
  | true, .thrown => false

/-- Embeds `RedisClient::lpush`. -/
def RedisClient.lpush : Bool → RedisOutcome Int → Int
  | false, _ => 0
  | true, .ok n => n
  | true, .thrown => 0

/-- Embeds `RedisClient::rpush`. -/
def RedisClient.rpush : Bool → RedisOutcome Int → Int
  | false, _ => 0
  | true, .ok n => n
  | true, .thrown => 0

/-- Embeds `RedisClient::lpop`. -/
def RedisClient.lpop : Bool → RedisOutcome (Option String) → Option String
  | false, _ => none
  | true, .ok v => v
  | true, .thrown => none

/-- Embeds `RedisClient::rpop`. -/
def RedisClient.rpop : Bool → RedisOutcome (Option String) → Option String
  | false, _ => none
  | true, .ok v => v
  | true, .thrown => none

/-- Embeds `RedisClient::llen`. -/
def RedisClient.llen : Bool → RedisOutcome Int → Int
  | false, _ => 0
  | true, .ok n => n
  | true, .thrown => 0

/-- Embeds `RedisClient::sadd` (`return redis_->sadd(key, member) > 0`). -/
def RedisClient.sadd : Bool → RedisOutcome Int → Bool
  | false, _ => false
  | true, .ok n => decide (0 < n)
  | true, .thrown => false

/-- Embeds `RedisClient::sismember`. -/
def RedisClient.sismember : Bool → RedisOutcome Bool → Bool
  | false, _ => false
  | true, .ok b => b
  | true, .thrown => false

/-- Embeds `RedisClient::smembers`; the `unordered_set` result is modelled
as a list. -/
def RedisClient.smembers : Bool → RedisOutcome (List String) → List String
  | false, _ => []
  | true, .ok l => l
  | true, .thrown => []

/-- Embeds `RedisClient::zadd` (`return redis_->zadd(key, member, score) > 0`). -/
def RedisClient.zadd : Bool → RedisOutcome Int → Bool
  | false, _ => false
  | true, .ok n => decide (0 < n)
  | true, .thrown => false

/-- Embeds `RedisClient::zrange`. -/
def RedisClient.zrange : Bool → RedisOutcome (List String) → List String
  | false, _ => []
  | true, .ok l => l
  | true, .thrown => []

/-- Embeds `RedisClient::ping`. -/
def RedisClient.ping : Bool → RedisOutcome Unit → Bool
  | false, _ => false
  | true, .ok _ => true
  | true, .thrown => false

/-- Embeds `RedisClient::incr`. -/
def RedisClient.incr : Bool → RedisOutcome Int → Int
  | false, _ => 0
  | true, .ok n => n
  | true, .thrown => 0

/-- Embeds `RedisClient::decr`. -/
def RedisClient.decr : Bool → RedisOutcome Int → Int
  | false, _ => 0
  | true, .ok n => n
  | true, .thrown => 0

/-- Embeds `RedisClient::expire`. -/
def RedisClient.expire : Bool → RedisOutcome Bool → Bool
  | false, _ => false
  | true, .ok b => b
  | true, .thrown => false

/-- Embeds `RedisClient::publish`, which returns `void` and swallows
exceptions (`catch (...) { /* Ignore */ }`). -/
def RedisClient.publish : Bool → RedisOutcome Unit → Unit
  | _, _ => ()

/-- C8: every `RedisClient` operation returns its type's failure default
(`false`, `none`, `0`, an empty container, or `()` for `publish`) when the
client was never initialized, and likewise when the underlying Redis call
throws; since every operation is a total function into its plain result
type, no exception propagates to the caller. -/
theorem redis_ops_fail_closed :
    (∀ c, RedisClient.set false c = false) ∧
    RedisClient.set true .thrown = false ∧
    (∀ c, RedisClient.setTtl false c = false) ∧
    RedisClient.setTtl true .thrown = false ∧
    (∀ c, RedisClient.get false c = none) ∧
    RedisClient.get true .thrown = none ∧
    (∀ c, RedisClient.del false c = false) ∧
    RedisClient.del true .thrown = false ∧
    (∀ c, RedisClient.exists_key false c = false) ∧
    RedisClient.exists_key true .thrown = false ∧
    (∀ c, RedisClient.hset false c = false) ∧
    RedisClient.hset true .thrown = false ∧
    (∀ c, RedisClient.hget false c = none) ∧
    RedisClient.hget true .thrown = none ∧
    (∀ c, RedisClient.hgetall false c = []) ∧
    RedisClient.hgetall true .thrown = [] ∧
    (∀ c, RedisClient.hdel false c = false) ∧
    RedisClient.hdel true .thrown = false ∧
    (∀ c, RedisClient.lpush false c = 0) ∧
    RedisClient.lpush true .thrown = 0 ∧
    (∀ c, RedisClient.rpush false c = 0) ∧
    RedisClient.rpush true .thrown = 0 ∧
    (∀ c, RedisClient.lpop false c = none) ∧
    RedisClient.lpop true .thrown = none ∧
    (∀ c, RedisClient.rpop false c = none) ∧
    RedisClient.rpop true .thrown = none ∧
    (∀ c, RedisClient.llen false c = 0) ∧
    RedisClient.llen true .thrown = 0 ∧
    (∀ c, RedisClient.sadd false c = false) ∧
    RedisClient.sadd true .thrown = false ∧
    (∀ c, RedisClient.sismember false c = false) ∧
    RedisClient.sismember true .thrown = false ∧
    (∀ c, RedisClient.smembers false c = []) ∧
    RedisClient.smembers true .thrown = [] ∧
    (∀ c, RedisClient.zadd false c = false) ∧
    RedisClient.zadd true .thrown = false ∧
    (∀ c, RedisClient.zrange false c = []) ∧
    RedisClient.zrange true .thrown = [] ∧
    (∀ c, RedisClient.ping false c = false) ∧
    RedisClient.ping true .thrown = false ∧
    (∀ c, RedisClient.incr false c = 0) ∧
    RedisClient.incr true .thrown = 0 ∧
    (∀ c, RedisClient.decr false c = 0) ∧
    RedisClient.decr true .thrown = 0 ∧
    (∀ c, RedisClient.expire false c = false) ∧
    RedisClient.expire true .thrown = false ∧
    (∀ c, RedisClient.publish false c = ()) ∧
    RedisClient.publish true .thrown = () := by
  refine ⟨fun c => rfl, rfl, fun c => rfl, rfl, fun c => rfl, rfl,
    fun c => rfl, rfl, fun c => rfl, rfl, fun c => rfl, rfl,
    fun c => rfl, rfl, fun c => rfl, rfl, fun c => rfl, rfl,
    fun c => rfl, rfl, fun c => rfl, rfl, fun c => rfl, rfl,
    fun c => rfl, rfl, fun c => rfl, rfl, fun c => rfl, rfl,
    fun c => rfl, rfl, fun c => rfl, rfl, fun c => rfl, rfl,
    fun c => rfl, rfl, fun c => rfl, rfl, fun c => rfl, rfl,
    fun c => rfl, rfl, fun c => rfl, rfl, fun c => rfl, rfl⟩

/-- Embeds `DatabaseConfig` of `config.hpp`. -/
structure DatabaseConfig where
  host : String
  port : Int
  database : String
  username : String
  password : String
  pool_size : Int
  max_connections : Int
  timeout_seconds : Int
  deriving DecidableEq, Repr

/-- The member initializers of `DatabaseConfig` in `config.hpp`. -/
def defaultDatabaseConfig : DatabaseConfig :=
  ⟨"localhost", 5432, "protei_bulk", "protei", "elephant", 20, 50, 30⟩

/-- Embeds `RedisConfig` of `config.hpp`. -/
structure RedisConfig where
  enabled : Bool
  host : String
  port : Int
  password : String
  database : Int
  pool_size : Int
  timeout_ms : Int
  deriving DecidableEq, Repr

/-- The member initializers of `RedisConfig` in `config.hpp`. -/
def defaultRedisConfig : RedisConfig :=
  ⟨true, "localhost", 6379, "", 0, 10, 1000⟩

/-- The optional keys of the `[PostgreSQL]` section of an INI file, as read
by `Config::load_db_config`; `none` models an absent key, in which case
`ptree::get` keeps the current value. -/
structure PgSection where
  host : Option String
  port : Option Int
  database : Option String
  username : Option String
  password : Option String
  pool_size : Option Int
  max_connections : Option Int
  deriving DecidableEq, Repr

/-- The optional keys of the `[Redis]` section of an INI file. -/
structure RedisSection where
  enabled : Option Bool
  host : Option String
  port : Option Int
  password : Option String
  database : Option Int
  pool_size : Option Int
  deriving DecidableEq, Repr

/-- The two INI sections `Config::load_db_config` reads; `none` models a
section absent from the file (`get_child_optional` fails). -/
structure IniTree where
  postgreSQL : Option PgSection
  redis : Option RedisSection
  deriving DecidableEq, Repr

/-- The environment variables `config.cpp` consults.  Numeric variables are
modelled with their `atoi`-parsed value. -/
structure EnvVars where
  db_host : Option String
  db_port : Option Int
  db_name : Option String
  db_user : Option String
  db_password : Option String
  redis_host : Option String
  redis_port : Option Int
  redis_password : Option String
  redis_db : Option Int
  app_env : Option String
  log_level : Option String

/-- Embeds `Config::load_db_config` (`config.cpp`).  `DB_HOST` presence in
the environment disables the file's PostgreSQL identity fields but not
`pool_size`/`max_connections`; `REDIS_HOST` presence disables the file's
Redis identity fields but not `enabled`/`pool_size`. -/
def load_db_config (env : EnvVars) (pt : IniTree)
    (db : DatabaseConfig) (redis : RedisConfig) :
    DatabaseConfig × RedisConfig :=
  let has_env_db := env.db_host.isSome
  let db1 :=
    match pt.postgreSQL with
    | none => db
    | some sec =>
      let dbA :=
        if has_env_db then db
        else { db with
          host := sec.host.getD db.host,
          port := sec.port.getD db.port,
          database := sec.database.getD db.database,
          username := sec.username.getD db.username,
          password := sec.password.getD db.password }
      { dbA with
        pool_size := sec.pool_size.getD dbA.pool_size,
        max_connections := sec.max_connections.getD dbA.max_connections }
  let has_env_redis := env.redis_host.isSome
  let redis1 :=
    match pt.redis with
    | none => redis
    | some sec =>
      let rA := { redis with enabled := sec.enabled.getD redis.enabled }
      let rB :=
        if has_env_redis then rA
        else { rA with
          host := sec.host.getD rA.host,
          port := sec.port.getD rA.port,
          password := sec.password.getD rA.password,
          database := sec.database.getD rA.database }
      { rB with pool_size := sec.pool_size.getD rB.pool_size }
  (db1, redis1)

/-- C9: with `DB_HOST` and `REDIS_HOST` set in the environment,
`load_db_config` leaves the database host, port, database name, username
and password at their environment-loaded values while still overwriting
`pool_size` and `max_connections` from the `[PostgreSQL]` section, and
leaves the Redis host, port, password and database unchanged while still
overwriting `enabled` and `pool_size` from the `[Redis]` section. -/
theorem load_db_config_env_precedence (env : EnvVars) (pt : IniTree)
    (db : DatabaseConfig) (r : RedisConfig)
    (sec : PgSection) (rsec : RedisSection) (hd : String) (hr : String)
    (henvd : env.db_host = some hd) (henvr : env.redis_host = some hr)
    (hpg : pt.postgreSQL = some sec) (hre : pt.redis = some rsec) :
    (load_db_config env pt db r).1.host = db.host ∧
    (load_db_config env pt db r).1.port = db.port ∧
    (load_db_config env pt db r).1.database = db.database ∧
    (load_db_config env pt db r).1.username = db.username ∧
    (load_db_config env pt db r).1.password = db.password ∧
    (load_db_config env pt db r).1.pool_size = sec.pool_size.getD db.pool_size ∧
    (load_db_config env pt db r).1.max_connections =
      sec.max_connections.getD db.max_connections ∧
    (load_db_config env pt db r).2.host = r.host ∧
    (load_db_config env pt db r).2.port = r.port ∧
    (load_db_config env pt db r).2.password = r.password ∧
    (load_db_config env pt db r).2.database = r.database ∧
    (load_db_config env pt db r).2.enabled = rsec.enabled.getD r.enabled ∧
    (load_db_config env pt db r).2.pool_size = rsec.pool_size.getD r.pool_size := by
  simp [load_db_config, henvd, henvr, hpg, hre]

/-- Concrete INI tree used to witness `load_db_config_env_precedence`. -/
def c9IniTree : IniTree :=
  ⟨some ⟨some "filehost", some 5433, some "filedb", some "fileuser",
         some "filepw", some 7, some 9⟩,
   some ⟨some false, some "fileredis", some 6380, some "filerpw",
         some 3, some 4⟩⟩

/-- Concrete environment used to witness `load_db_config_env_precedence`:
both `DB_HOST` and `REDIS_HOST` are set. -/
def c9Env : EnvVars :=
  ⟨some "envhost", none, none, none, none, some "envredis", none, none,
   none, none, none⟩

/-- Witness for C9: the theorem applied to a concrete environment, INI file
and configuration pair. -/
theorem load_db_config_env_precedence_witness :
    (load_db_config c9Env c9IniTree defaultDatabaseConfig defaultRedisConfig).1.host =
      defaultDatabaseConfig.host ∧
    (load_db_config c9Env c9IniTree defaultDatabaseConfig defaultRedisConfig).1.port =
      defaultDatabaseConfig.port ∧
    (load_db_config c9Env c9IniTree defaultDatabaseConfig defaultRedisConfig).1.database =
      defaultDatabaseConfig.database ∧
    (load_db_config c9Env c9IniTree defaultDatabaseConfig defaultRedisConfig).1.username =
      defaultDatabaseConfig.username ∧
    (load_db_config c9Env c9IniTree defaultDatabaseConfig defaultRedisConfig).1.password =
      defaultDatabaseConfig.password ∧
    (load_db_config c9Env c9IniTree defaultDatabaseConfig defaultRedisConfig).1.pool_size =
      (some 7).getD defaultDatabaseConfig.pool_size ∧
    (load_db_config c9Env c9IniTree defaultDatabaseConfig defaultRedisConfig).1.max_connections =
      (some 9).getD defaultDatabaseConfig.max_connections ∧
    (load_db_config c9Env c9IniTree defaultDatabaseConfig defaultRedisConfig).2.host =
      defaultRedisConfig.host ∧
    (load_db_config c9Env c9IniTree defaultDatabaseConfig defaultRedisConfig).2.port =
      defaultRedisConfig.port ∧
    (load_db_config c9Env c9IniTree defaultDatabaseConfig defaultRedisConfig).2.password =
      defaultRedisConfig.password ∧
    (load_db_config c9Env c9IniTree defaultDatabaseConfig defaultRedisConfig).2.database =
      defaultRedisConfig.database ∧
    (load_db_config c9Env c9IniTree defaultDatabaseConfig defaultRedisConfig).2.enabled =
      (some false).getD defaultRedisConfig.enabled ∧
    (load_db_config c9Env c9IniTree defaultDatabaseConfig defaultRedisConfig).2.pool_size =
      (some 4).getD defaultRedisConfig.pool_size :=
  load_db_config_env_precedence c9Env c9IniTree defaultDatabaseConfig
    defaultRedisConfig _ _ "envhost" "envredis" rfl rfl rfl rfl

/-- Embeds `AppConfig` of `config.hpp` (the fields `load_from_env`
touches, plus defaults). -/
structure AppConfig where
  app_name : String
  version : String
  environment : String
  deriving DecidableEq, Repr

/-- Embeds `SecurityConfig` of `config.hpp`. -/
structure SecurityConfig where
  secret_key : String
  jwt_algorithm : String
  access_token_expire_minutes : Int
  password_min_length : Int
  deriving DecidableEq, Repr

/-- Aggregate state of the `Config` singleton: the member structs its
constructor can touch. -/
structure ConfigState where
  app_config_ : AppConfig
  db_config_ : DatabaseConfig
  redis_config_ : RedisConfig
  security_config_ : SecurityConfig
  deriving DecidableEq, Repr

/-- The member initializers of the `Config` data members in `config.hpp`;
`secret_key` has no initializer and so starts empty. -/
def defaultConfigState : ConfigState :=
  ⟨⟨"Protei_Bulk", "1.0.0", "production"⟩,
   defaultDatabaseConfig, defaultRedisConfig,
   ⟨"", "HS256", 60, 12⟩⟩

/-- Embeds `Config::load_from_env` (`config.cpp`): each present environment
variable overwrites the matching database, Redis or application field; a
conditional assignment `if (getenv(X)) field = X;` is `Option.getD`.  No
branch of the function writes `security_config_`. -/
def Config.load_from_env (env : EnvVars) (c : ConfigState) : ConfigState :=
  { c with
    db_config_ := { c.db_config_ with
      host := env.db_host.getD c.db_config_.host,
      port := env.db_port.getD c.db_config_.port,
      database := env.db_name.getD c.db_config_.database,
      username := env.db_user.getD c.db_config_.username,
      password := env.db_password.getD c.db_config_.password },
    redis_config_ := { c.redis_config_ with
      host := env.redis_host.getD c.redis_config_.host,
      port := env.redis_port.getD c.redis_config_.port,
      password := env.redis_password.getD c.redis_config_.password,
      database := env.redis_db.getD c.redis_config_.database },
    app_config_ := { c.app_config_ with
      environment := env.app_env.getD c.app_config_.environment } }

/-- Lowercase hexadecimal digit, as `std::hex` renders values 0–15. -/
def hexDigit (n : Nat) : Char :=
  if n < 10 then Char.ofNat (48 + n) else Char.ofNat (87 + n)

/-- Two zero-padded lowercase hex digits for one byte, as
`oss << std::hex << std::setw(2) << std::setfill('0') << b` renders a
value below 256. -/
def toHex2 (b : Nat) : List Char :=
  [hexDigit (b / 16), hexDigit (b % 16)]

/-- The sixteen lowercase hexadecimal digits. -/
def hexChars : List Char := "0123456789abcdef".toList

/-- Character stream produced by the loop of `Config::generate_secret_key`:
32 random draws, each rendered as two hex digits. -/
def secretKeyChars (draw : Nat → Nat) : List Char :=
  ((List.range 32).map fun i => toHex2 (draw i)).flatten

/-- Embeds `Config::generate_secret_key` (`config.cpp`); `draw i` is the
`i`-th value of `dis(gen)`, uniform on `[0, 255]`. -/
def generate_secret_key (draw : Nat → Nat) : String :=
  String.mk (secretKeyChars draw)

/-- Embeds the `Config` constructor (`config.cpp`): load from the
environment, then generate the secret key if it is still empty. -/
def Config.construct (env : EnvVars) (draw : Nat → Nat) : ConfigState :=
  let c := Config.load_from_env env defaultConfigState
  if c.security_config_.secret_key = "" then
    { c with security_config_ :=
      { c.security_config_ with secret_key := generate_secret_key draw } }
  else c

/-- Helper: a hex digit of a value below 16 is a lowercase hex character. -/
theorem hexDigit_mem_hexChars (n : Nat) (h : n < 16) :
    hexDigit n ∈ hexChars := by
  interval_cases n <;> decide

/-- Helper: the generated character stream always has 64 characters. -/
theorem secretKeyChars_length (draw : Nat → Nat) :
    (secretKeyChars draw).length = 64 := by
  simp [secretKeyChars, toHex2, Function.comp_def, List.map_const',
    List.sum_replicate]

/-- C10: after the `Config` constructor completes, the security
configuration's `secret_key` equals the generated key — no
environment-loading path sets it — and that key is a non-empty 64-character
string of lowercase hexadecimal digits, two zero-padded digits per random
byte. -/
theorem config_secret_key_always_hex (env : EnvVars) (draw : Nat → Nat)
    (h : ∀ i, i < 32 → draw i < 256) :
    (Config.construct env draw).security_config_.secret_key =
      generate_secret_key draw ∧
    (generate_secret_key draw).length = 64 ∧
    generate_secret_key draw ≠ "" ∧
    ∀ ch ∈ (generate_secret_key draw).data, ch ∈ hexChars := by
  refine ⟨rfl, ?_, ?_, ?_⟩
  · show (secretKeyChars draw).length = 64
    exact secretKeyChars_length draw
  · intro habs
    have hd : secretKeyChars draw = [] := congrArg String.data habs
    have hl := secretKeyChars_length draw
    rw [hd] at hl
    exact absurd hl (by decide)
  · intro ch hch
    simp only [generate_secret_key, secretKeyChars, String.data,
      List.mem_flatten, List.mem_map, List.mem_range] at hch
    obtain ⟨block, ⟨i, hi, hblock⟩, hmem⟩ := hch
    have hb : draw i < 256 := h i hi
    rw [← hblock] at hmem
    simp only [toHex2, List.mem_cons, List.not_mem_nil, or_false] at hmem
    rcases hmem with h1 | h1
    · rw [h1]
      exact hexDigit_mem_hexChars _ (by omega)
    · rw [h1]
      exact hexDigit_mem_hexChars _ (by omega)

/-- Witness for C10: the theorem applied to an empty environment and the
identity draw. -/
theorem config_secret_key_always_hex_witness :
    (∀ i, i < 32 → (fun j => j) i < 256) ∧
    ((Config.construct ⟨none, none, none, none, none, none, none, none,
        none, none, none⟩ (fun j => j)).security_config_.secret_key =
      generate_secret_key (fun j => j) ∧
    (generate_secret_key (fun j => j)).length = 64 ∧
    generate_secret_key (fun j => j) ≠ "" ∧
    ∀ ch ∈ (generate_secret_key (fun j => j)).data, ch ∈ hexChars) :=
  ⟨fun i hi => by show i < 256; omega,
   config_secret_key_always_hex
     ⟨none, none, none, none, none, none, none, none, none, none, none⟩
     (fun j => j) (fun i hi => by show i < 256; omega)⟩

/-- A pooled database connection: identity plus the `is_open` status of
the underlying `pqxx::connection`. -/
structure Conn where
  id : Nat
  open_ : Bool
  deriving DecidableEq, Repr

/-- Errors the pool code can throw. -/
inductive DbError where
  | PoolTimeout
  | CallbackFailed
  | CommitFailed
  deriving DecidableEq, Repr

/-- State of the `Database` pool: the `available_` queue (front first) and
a counter for minting recreated connections. -/
structure PoolState where
  available_ : List Conn
  next_id : Nat
  deriving DecidableEq, Repr

/-- Embeds `Database::get_connection` (`database.cpp`) for the
single-threaded case: with no other thread to notify the condition
variable, an empty queue times out and throws; otherwise the front
connection is popped, and a closed connection is replaced by a freshly
created one. -/
def Database.get_connection (s : PoolState) : Except DbError (Conn × PoolState) :=
  match s.available_ with
  | [] => .error .PoolTimeout
  | c :: rest =>
    if c.open_ then .ok (c, { s with available_ := rest })
    else .ok ({ id := s.next_id, open_ := true },
              { available_ := rest, next_id := s.next_id + 1 })

/-- Embeds `Database::return_connection` (`database.cpp`): an open
connection is pushed to the back of the queue, a closed one is dropped. -/
def Database.return_connection (c : Conn) (s : PoolState) : PoolState :=
  if c.open_ then { s with available_ := s.available_ ++ [c] } else s

/-- Result of one `execute`/`transaction` call: the value or propagated
error, the final pool state, and the list of connections that were passed
to `return_connection`, in call order. -/
structure DbCallResult (α : Type) where
  result : Except DbError α
  pool : PoolState
  returned_ : List Conn

/-- Embeds `Database::execute` (`database.hpp`): acquire a connection, run
the callback, and hand the connection to `return_connection` both on
normal return and in the `catch (...)` handler before rethrowing. -/
def Database.execute {α : Type} (f : Conn → Except DbError α)
    (s : PoolState) : DbCallResult α :=
  match Database.get_connection s with
  | .error e => ⟨.error e, s, []⟩
  | .ok (c, s1) =>
    match f c with
    | .ok v => ⟨.ok v, Database.return_connection c s1, [c]⟩
    | .error e => ⟨.error e, Database.return_connection c s1, [c]⟩

/-- Embeds `Database::transaction` (`database.hpp`): like `execute`, with a
`pqxx::work` commit after the callback; `commit_ok c = false` models
`txn.commit()` throwing, which the `catch (...)` handler also routes
through `return_connection` before rethrowing. -/
def Database.transaction {α : Type} (f : Conn → Except DbError α)
    (commit_ok : Conn → Bool) (s : PoolState) : DbCallResult α :=
  match Database.get_connection s with
  | .error e => ⟨.error e, s, []⟩
  | .ok (c, s1) =>
    match f c with
    | .ok v =>
      if commit_ok c then ⟨.ok v, Database.return_connection c s1, [c]⟩
      else ⟨.error .CommitFailed, Database.return_connection c s1, [c]⟩
    | .error e => ⟨.error e, Database.return_connection c s1, [c]⟩

/-- C7: whenever `get_connection` yields a connection, `execute` and
`transaction` pass that connection to `return_connection` exactly once —
whether the callback returns normally, the callback throws, or the commit
throws — so no exit path leaks a pooled connection. -/
theorem db_execute_transaction_return_once {α : Type}
    (f g : Conn → Except DbError α) (commit_ok : Conn → Bool)
    (s : PoolState) (c : Conn) (s1 : PoolState)
    (h : Database.get_connection s = .ok (c, s1)) :
    (Database.execute f s).returned_ = [c] ∧
    (Database.transaction g commit_ok s).returned_ = [c] := by
  constructor
  · rcases hf : f c with e | v <;>
      simp [Database.execute, h, hf]
  · rcases hg : g c with e | v
    · simp [Database.transaction, h, hg]
    · by_cases hc : commit_ok c = true <;>
        simp [Database.transaction, h, hg, hc]

/-- Witness for C7: a pool holding one open connection, a callback that
throws and a commit that fails. -/
theorem db_execute_transaction_return_once_witness :
    (Database.execute (fun _ => (.error .CallbackFailed : Except DbError Nat))
      ⟨[⟨0, true⟩], 1⟩).returned_ = [⟨0, true⟩] ∧
    (Database.transaction (fun _ => (.ok 5 : Except DbError Nat))
      (fun _ => false) ⟨[⟨0, true⟩], 1⟩).returned_ = [⟨0, true⟩] :=
  db_execute_transaction_return_once
    (fun _ => (.error .CallbackFailed : Except DbError Nat))
    (fun _ => (.ok 5 : Except DbError Nat)) (fun _ => false)
    ⟨[⟨0, true⟩], 1⟩ ⟨0, true⟩ ⟨[], 1⟩ rfl

/-- Modelled from the spec: an `InFlightEntry` of the WindowManager —
`sequence_number → {submitted_at, payload_reference, deadline}` (§3); the
WindowManager itself has no implementation under the sources, only the
`window_size` configuration field of `config.hpp`. -/
structure InFlightEntry where
  sequence_number : Nat
  submitted_at : Nat
  payload_reference : Nat
  deadline : Nat
  deriving DecidableEq, Repr

/-- Modelled from the spec: the Window, a bounded collection of
`InFlightEntry` with capacity `window_size` (§3, §4.3). -/
structure WindowManager where
  window_size : Nat
  window : List InFlightEntry
  deriving DecidableEq, Repr

/-- Failure of a reservation attempt. -/
inductive WindowError where
  | WindowFull
  deriving DecidableEq, Repr

/-- Modelled from the spec: `reserve(sequence_number, payload_ref, timeout)`
admits a new in-flight request if `|Window| < window_size`, else fails
immediately with `WindowFull` (§4.3).  The entry's deadline is
`now + timeout`. -/
def WindowManager.reserve (wm : WindowManager) (now seq payload_ref timeout : Nat) :
    Except WindowError WindowManager :=
  if wm.window.length < wm.window_size then
    .ok { wm with
      window := wm.window ++ [⟨seq, now, payload_ref, now + timeout⟩] }
  else
    .error .WindowFull

/-- One reservation attempt: a failed reservation leaves the window
unchanged (the caller sees `WindowFull`). -/
def WindowManager.step (w : WindowManager) (c : Nat × Nat × Nat × Nat) :
    WindowManager :=
  match w.reserve c.1 c.2.1 c.2.2.1 c.2.2.2 with
  | .ok w2 => w2
  | .error _ => w

/-- A sequence of `reserve` calls applied in order. -/
def WindowManager.runReserves (wm : WindowManager)
    (calls : List (Nat × Nat × Nat × Nat)) : WindowManager :=
  calls.foldl WindowManager.step wm

/-- Helper: a reservation attempt never changes the capacity field. -/
theorem WindowManager.step_window_size (w : WindowManager)
    (c : Nat × Nat × Nat × Nat) : (w.step c).window_size = w.window_size := by
  unfold WindowManager.step WindowManager.reserve
  by_cases hlt : w.window.length < w.window_size <;> simp [hlt]

/-- Helper: a reservation attempt never pushes the occupancy above the
capacity. -/
theorem WindowManager.step_window_length (w : WindowManager)
    (c : Nat × Nat × Nat × Nat) (h : w.window.length ≤ w.window_size) :
    (w.step c).window.length ≤ w.window_size := by
  unfold WindowManager.step WindowManager.reserve
  by_cases hlt : w.window.length < w.window_size <;> simp [hlt] <;> omega

/-- Helper: the invariant `|window| ≤ window_size` is preserved by any
sequence of `reserve` calls, and the capacity field never changes. -/
theorem WindowManager.runReserves_invariant (calls : List (Nat × Nat × Nat × Nat))
    (wm : WindowManager) (h : wm.window.length ≤ wm.window_size) :
    (wm.runReserves calls).window.length ≤ wm.window_size ∧
    (wm.runReserves calls).window_size = wm.window_size := by
  induction calls generalizing wm with
  | nil => exact ⟨h, rfl⟩
  | cons c rest ih =>
    have hs := WindowManager.step_window_size wm c
    have hstep := WindowManager.step_window_length wm c h
    have hrun : wm.runReserves (c :: rest) = (wm.step c).runReserves rest := rfl
    obtain ⟨l1, l2⟩ := ih (wm.step c) (by rw [hs]; exact hstep)
    rw [hs] at l1 l2
    exact ⟨by rw [hrun]; exact l1, by rw [hrun]; exact l2⟩

/-- C2: starting from any window state within capacity, after any sequence
of `reserve` calls the number of in-flight entries never exceeds
`window_size`, and a reservation attempted while `window_size` entries are
outstanding fails with `WindowFull`. -/
theorem window_reserve_bounded (wm : WindowManager)
    (calls : List (Nat × Nat × Nat × Nat))
    (h : wm.window.length ≤ wm.window_size) :
    (wm.runReserves calls).window.length ≤ wm.window_size ∧
    ∀ now seq p t, (wm.runReserves calls).window.length =
        (wm.runReserves calls).window_size →
      (wm.runReserves calls).reserve now seq p t = .error .WindowFull := by
  refine ⟨(WindowManager.runReserves_invariant calls wm h).1, ?_⟩
  intro now seq p t hfull
  have : ¬ (wm.runReserves calls).window.length <
      (wm.runReserves calls).window_size := by omega
  simp [WindowManager.reserve, this]

/-- Witness for C2: a window of capacity 1 receiving three reservation
attempts ends with one entry, and a further attempt at full occupancy
fails with `WindowFull`. -/
theorem window_reserve_bounded_witness :
    (WindowManager.runReserves ⟨1, []⟩
        [(0, 1, 10, 5), (0, 2, 11, 5), (1, 3, 12, 5)]).window.length ≤ 1 ∧
    ∀ now seq p t, (WindowManager.runReserves ⟨1, []⟩
          [(0, 1, 10, 5), (0, 2, 11, 5), (1, 3, 12, 5)]).window.length =
        (WindowManager.runReserves ⟨1, []⟩
          [(0, 1, 10, 5), (0, 2, 11, 5), (1, 3, 12, 5)]).window_size →
      (WindowManager.runReserves ⟨1, []⟩
          [(0, 1, 10, 5), (0, 2, 11, 5), (1, 3, 12, 5)]).reserve now seq p t =
        .error .WindowFull :=
  window_reserve_bounded ⟨1, []⟩
    [(0, 1, 10, 5), (0, 2, 11, 5), (1, 3, 12, 5)] (by decide)

/-- Modelled from the spec: the session states of §4.2
(`Closed → Connecting → Open → Binding → Bound* → Unbinding → Closed`). -/
inductive SessionState where
  | Closed
  | Connecting
  | Open
  | Binding
  | BoundTx
  | BoundRx
  | BoundTrx
  | Unbinding
  deriving DecidableEq, Repr

/-- The bind mode requested by one of the three bind variants. -/
inductive BindMode where
  | transmitter
  | receiver
  | transceiver
  deriving DecidableEq, Repr

/-- Outbound PDU kinds subject to the legality rule of §4.2. -/
inductive OutboundKind where
  | SubmitSm
  | SubmitMulti
  | DeliverSmResp
  | EnquireLink
  | EnquireLinkResp
  | BindRequest (mode : BindMode)
  | UnbindRequest
  deriving DecidableEq, Repr

/-- Modelled from the spec: the legality rule enforced before encoding any
outbound PDU (§4.2): `SubmitSm`/`SubmitMulti` require `BoundTx`/`BoundTrx`;
`DeliverSmResp` requires `BoundRx`/`BoundTrx`; `EnquireLink` and its
response are legal in any `Bound*` state; `Bind*` only from `Open`;
`Unbind` only from a `Bound*` state. -/
def legal_to_send (st : SessionState) : OutboundKind → Bool
  | .SubmitSm | .SubmitMulti =>
    st = .BoundTx || st = .BoundTrx
  | .DeliverSmResp =>
    st = .BoundRx || st = .BoundTrx
  | .EnquireLink | .EnquireLinkResp =>
    st = .BoundTx || st = .BoundRx || st = .BoundTrx
  | .BindRequest _ =>
    st = .Open
  | .UnbindRequest =>
    st = .BoundTx || st = .BoundRx || st = .BoundTrx

/-- Error surfaced to the caller on a legality violation. -/
inductive SendError where
  | IllegalInState
  deriving DecidableEq, Repr

/-- Modelled from the spec: a session as far as the legality rule observes
it (state and bound mode, §3). -/
structure Session where
  state : SessionState
  system_id : String
  sequence_counter : Nat
  deriving DecidableEq, Repr

/-- Modelled from the spec: attempting to send an outbound PDU.  If the
legality rule rejects the kind in the current state, the attempt fails
synchronously with `IllegalInState` and the list of bytes written to the
socket is empty; otherwise the encoded bytes are written (§4.2, §7). -/
def Session.send_pdu (s : Session) (k : OutboundKind) (encoded : List Nat) :
    Except SendError Unit × List Nat :=
  if legal_to_send s.state k then (.ok (), encoded)
  else (.error .IllegalInState, [])

/-- C3: from every session state other than `BoundTx` and `BoundTrx`, an
attempted outbound `SubmitSm` fails synchronously with `IllegalInState`
and writes nothing to the socket. -/
theorem submit_sm_illegal_outside_bound_tx_trx (s : Session)
    (encoded : List Nat)
    (h1 : s.state ≠ .BoundTx) (h2 : s.state ≠ .BoundTrx) :
    s.send_pdu .SubmitSm encoded = (.error .IllegalInState, []) := by
  have hlegal : legal_to_send s.state .SubmitSm = false := by
    cases hs : s.state <;> simp_all [legal_to_send]
  simp [Session.send_pdu, hlegal]

/-- Witness for C3: a session still in the `Binding` state attempting a
`SubmitSm` carrying four encoded bytes. -/
theorem submit_sm_illegal_outside_bound_tx_trx_witness :
    (Session.send_pdu ⟨.Binding, "PROTEI_BULK", 1⟩ .SubmitSm [1, 2, 3, 4]) =
      (.error .IllegalInState, []) :=
  submit_sm_illegal_outside_bound_tx_trx ⟨.Binding, "PROTEI_BULK", 1⟩
    [1, 2, 3, 4] (by decide) (by decide)

/-- Decode/encode failures of the PDU codec, from the spec's error
taxonomy (§4.1, §7). -/
inductive PduError where
  | Truncated
  | LengthMismatch
  | UnknownCommand (command_id : Nat)
  | MalformedTlv
  | FieldTooLong
  deriving DecidableEq, Repr

/-- Body of the three bind variants, with the fields of `BindPdu` in
`smpp_pdu.hpp`.  C++ byte strings are byte lists. -/
structure BindBody where
  system_id : List Nat
  password : List Nat
  system_type : List Nat
  interface_version : Nat
  addr_ton : Nat
  addr_npi : Nat
  address_range : List Nat
  deriving DecidableEq, Repr

/-- Body of a bind response, with the fields of `BindRespPdu`. -/
structure BindRespBody where
  system_id : List Nat
  deriving DecidableEq, Repr

/-- Body shared by `SubmitSmPdu` and `DeliverSmPdu` in `smpp_pdu.hpp`
(field-for-field identical there); `sm_length` is derived from
`short_message` and not stored. -/
structure SmBody where
  service_type : List Nat
  source_addr_ton : Nat
  source_addr_npi : Nat
  source_addr : List Nat
  dest_addr_ton : Nat
  dest_addr_npi : Nat
  destination_addr : List Nat
  esm_class : Nat
  protocol_id : Nat
  priority_flag : Nat
  schedule_delivery_time : List Nat
  validity_period : List Nat
  registered_delivery : Nat
  replace_if_present_flag : Nat
  data_coding : Nat
  sm_default_msg_id : Nat
  short_message : List Nat
  deriving DecidableEq, Repr

/-- Body of a submit response, with the field of `SubmitSmRespPdu`. -/
structure SubmitSmRespBody where
  message_id : List Nat
  deriving DecidableEq, Repr

/-- Modelled from the spec: the tagged union over PDU kinds (§3), covering
the variants whose classes appear in `smpp_pdu.hpp`. -/
inductive PduBody where
  | Bind (mode : BindMode) (b : BindBody)
  | BindResp (mode : BindMode) (b : BindRespBody)
  | SubmitSm (b : SmBody)
  | SubmitSmResp (b : SubmitSmRespBody)
  | DeliverSm (b : SmBody)
  | EnquireLink
  | EnquireLinkResp
  | Unbind
  | UnbindResp
  deriving DecidableEq, Repr

/-- A typed PDU: status and sequence number from the header, plus the
body; `command_length` and `command_id` are derived, never stored. -/
structure Pdu where
  command_status : Nat
  sequence_number : Nat
  body : PduBody
  deriving DecidableEq, Repr

/-- Command identifier of each bind variant, from the `SmppCommand`
values. -/
def BindMode.cmdCode : BindMode → Nat
  | .receiver => 0x00000001
  | .transmitter => 0x00000002
  | .transceiver => 0x00000009

/-- Command identifier of each bind-response variant, from the
`SmppCommand` values (the request code with the `0x80000000` bit set). -/
def BindMode.respCmdCode : BindMode → Nat
  | .receiver => 0x80000001
  | .transmitter => 0x80000002
  | .transceiver => 0x80000009

/-- Command identifier of each PDU kind, from the `SmppCommand` values. -/
def PduBody.command_id : PduBody → Nat
  | .Bind m _ => m.cmdCode
  | .BindResp m _ => m.respCmdCode
  | .SubmitSm _ => 0x00000004
  | .SubmitSmResp _ => 0x80000004
  | .DeliverSm _ => 0x00000005
  | .EnquireLink => 0x00000015
  | .EnquireLinkResp => 0x80000015
  | .Unbind => 0x00000006
  | .UnbindResp => 0x80000006

/-- Modelled from the spec: a `u32` in big-endian network byte order
(§4.1). -/
def u32be (n : Nat) : List Nat :=
  [n / 16777216 % 256, n / 65536 % 256, n / 256 % 256, n % 256]

/-- Modelled from the spec: a NUL-terminated byte sequence (§4.1),
matching the declared `encode_c_string` utility of `smpp_pdu.hpp`. -/
def cstr (s : List Nat) : List Nat := s ++ [0]

/-- Modelled from the spec: serialized bind body in SMPP v3.4 field
order. -/
def encodeBindBody (b : BindBody) : List Nat :=
  cstr b.system_id ++ cstr b.password ++ cstr b.system_type ++
  [b.interface_version, b.addr_ton, b.addr_npi] ++ cstr b.address_range

/-- Modelled from the spec: serialized submit/deliver body in SMPP v3.4
field order, `short_message` length-prefixed by the one-byte
`sm_length` (§4.1). -/
def encodeSmBody (b : SmBody) : List Nat :=
  cstr b.service_type ++ [b.source_addr_ton, b.source_addr_npi] ++
  cstr b.source_addr ++ [b.dest_addr_ton, b.dest_addr_npi] ++
  cstr b.destination_addr ++ [b.esm_class, b.protocol_id, b.priority_flag] ++
  cstr b.schedule_delivery_time ++ cstr b.validity_period ++
  [b.registered_delivery, b.replace_if_present_flag, b.data_coding,
   b.sm_default_msg_id, b.short_message.length] ++ b.short_message

/-- Serialized body of each PDU kind. -/
def encodeBody : PduBody → List Nat
  | .Bind _ b => encodeBindBody b
  | .BindResp _ b => cstr b.system_id
  | .SubmitSm b => encodeSmBody b
  | .SubmitSmResp b => cstr b.message_id
  | .DeliverSm b => encodeSmBody b
  | .EnquireLink => []
  | .EnquireLinkResp => []
  | .Unbind => []
  | .UnbindResp => []

/-- Modelled from the spec: full serialization — header fields big-endian
with `command_length` always recomputed as 16 plus the body length, never
taken from caller input (§4.1). -/
def rawEncode (p : Pdu) : List Nat :=
  u32be (16 + (encodeBody p.body).length) ++ u32be p.body.command_id ++
  u32be p.command_status ++ u32be p.sequence_number ++ encodeBody p.body

/-- A valid byte value. -/
def byteOk (b : Nat) : Bool := decide (b < 256)

/-- A byte string storable in a NUL-terminated field: valid bytes, none of
them NUL. -/
def cstrOk (s : List Nat) : Bool :=
  s.all fun b => decide (0 < b) && decide (b < 256)

/-- Modelled from the spec: the maximum-width check of `encode`, which
fails with `FieldTooLong` when a string exceeds its SMPP v3.4 field width
(§4.1, §6). -/
def fieldLenOk : PduBody → Bool
  | .Bind _ b =>
    decide (b.system_id.length ≤ 15) && decide (b.password.length ≤ 8) &&
    decide (b.system_type.length ≤ 12) && decide (b.address_range.length ≤ 40)
  | .BindResp _ b => decide (b.system_id.length ≤ 15)
  | .SubmitSm b =>
    decide (b.service_type.length ≤ 5) && decide (b.source_addr.length ≤ 20) &&
    decide (b.destination_addr.length ≤ 20) &&
    decide (b.schedule_delivery_time.length ≤ 16) &&
    decide (b.validity_period.length ≤ 16) &&
    decide (b.short_message.length ≤ 254)
  | .DeliverSm b =>
    decide (b.service_type.length ≤ 5) && decide (b.source_addr.length ≤ 20) &&
    decide (b.destination_addr.length ≤ 20) &&
    decide (b.schedule_delivery_time.length ≤ 16) &&
    decide (b.validity_period.length ≤ 16) &&
    decide (b.short_message.length ≤ 254)
  | .SubmitSmResp b => decide (b.message_id.length ≤ 64)
  | .EnquireLink => true
  | .EnquireLinkResp => true
  | .Unbind => true
  | .UnbindResp => true

/-- Well-formed submit/deliver body: representable strings and bytes. -/
def smWf (b : SmBody) : Bool :=
  cstrOk b.service_type && byteOk b.source_addr_ton &&
  byteOk b.source_addr_npi && cstrOk b.source_addr &&
  byteOk b.dest_addr_ton && byteOk b.dest_addr_npi &&
  cstrOk b.destination_addr && byteOk b.esm_class && byteOk b.protocol_id &&
  byteOk b.priority_flag && cstrOk b.schedule_delivery_time &&
  cstrOk b.validity_period && byteOk b.registered_delivery &&
  byteOk b.replace_if_present_flag && byteOk b.data_coding &&
  byteOk b.sm_default_msg_id && b.short_message.all byteOk

/-- Well-formed body: every field holds representable bytes and every
string is free of interior NUL bytes. -/
def bodyWf : PduBody → Bool
  | .Bind _ b =>
    cstrOk b.system_id && cstrOk b.password && cstrOk b.system_type &&
    byteOk b.interface_version && byteOk b.addr_ton && byteOk b.addr_npi &&
    cstrOk b.address_range
  | .BindResp _ b => cstrOk b.system_id
  | .SubmitSm b => smWf b
  | .SubmitSmResp b => cstrOk b.message_id
  | .DeliverSm b => smWf b
  | .EnquireLink => true
  | .EnquireLinkResp => true
  | .Unbind => true
  | .UnbindResp => true

/-- Well-formed PDU: well-formed body, fields within width, and header
numerics within `u32` range. -/
def pduWf (p : Pdu) : Bool :=
  bodyWf p.body && fieldLenOk p.body &&
  decide (p.command_status < 4294967296) &&
  decide (p.sequence_number < 4294967296)

/-- Modelled from the spec: `encode(pdu) → bytes`, failing with
`FieldTooLong` when a bounded string exceeds its maximum width (§4.1). -/
def encode (p : Pdu) : Except PduError (List Nat) :=
  if fieldLenOk p.body then .ok (rawEncode p) else .error .FieldTooLong

/-- Bounds-checked single-byte read. -/
def readU8 : List Nat → Option (Nat × List Nat)
  | [] => none
  | b :: rest => some (b, rest)

/-- Bounds-checked NUL-terminated string read: consumes bytes up to and
including the terminator; `none` when the terminator is missing. -/
def readCString : List Nat → Option (List Nat × List Nat)
  | [] => none
  | b :: rest =>
    if b = 0 then some ([], rest)
    else (readCString rest).map fun p => (b :: p.1, p.2)

/-- Bounds-checked fixed-length read. -/
def readBytes : Nat → List Nat → Option (List Nat × List Nat)
  | 0, l => some ([], l)
  | _ + 1, [] => none
  | n + 1, b :: rest => (readBytes n rest).map fun p => (b :: p.1, p.2)

/-- Big-endian `u32` at offset `i`, through bounds-checked reads (a byte
beyond the buffer reads as the default and can never touch memory out of
bounds). -/
def beAt (data : List Nat) (i : Nat) : Nat :=
  ((data.getD i 0 * 256 + data.getD (i + 1) 0) * 256 +
    data.getD (i + 2) 0) * 256 + data.getD (i + 3) 0

/-- The `command_length` field a buffer declares: its first four bytes,
big-endian. -/
def declared_command_length (data : List Nat) : Nat := beAt data 0

/-- Parses a bind body; `none` when a read runs out of bytes or bytes
remain unconsumed. -/
def decodeBindBody (bs : List Nat) : Option BindBody :=
  match readCString bs with
  | none => none
  | some (sid, r1) =>
  match readCString r1 with
  | none => none
  | some (pw, r2) =>
  match readCString r2 with
  | none => none
  | some (st, r3) =>
  match readU8 r3 with
  | none => none
  | some (iv, r4) =>
  match readU8 r4 with
  | none => none
  | some (ton, r5) =>
  match readU8 r5 with
  | none => none
  | some (npi, r6) =>
  match readCString r6 with
  | none => none
  | some (ar, r7) =>
  if r7 = [] then some ⟨sid, pw, st, iv, ton, npi, ar⟩ else none

/-- Parses a bind-response body. -/
def decodeBindRespBody (bs : List Nat) : Option BindRespBody :=
  match readCString bs with
  | none => none
  | some (sid, r1) =>
  if r1 = [] then some ⟨sid⟩ else none

/-- Parses a submit/deliver body, the short message read through its
one-byte length prefix. -/
def decodeSmBody (bs : List Nat) : Option SmBody :=
  match readCString bs with
  | none => none
  | some (st, r1) =>
  match readU8 r1 with
  | none => none
  | some (saton, r2) =>
  match readU8 r2 with
  | none => none
  | some (sanpi, r3) =>
  match readCString r3 with
  | none => none
  | some (sa, r4) =>
  match readU8 r4 with
  | none => none
  | some (daton, r5) =>
  match readU8 r5 with
  | none => none
  | some (danpi, r6) =>
  match readCString r6 with
  | none => none
  | some (da, r7) =>
  match readU8 r7 with
  | none => none
  | some (esm, r8) =>
  match readU8 r8 with
  | none => none
  | some (pid, r9) =>
  match readU8 r9 with
  | none => none
  | some (pf, r10) =>
  match readCString r10 with
  | none => none
  | some (sdt, r11) =>
  match readCString r11 with
  | none => none
  | some (vp, r12) =>
  match readU8 r12 with
  | none => none
  | some (rd, r13) =>
  match readU8 r13 with
  | none => none
  | some (rip, r14) =>
  match readU8 r14 with
  | none => none
  | some (dc, r15) =>
  match readU8 r15 with
  | none => none
  | some (smi, r16) =>
  match readU8 r16 with
  | none => none
  | some (smlen, r17) =>
  match readBytes smlen r17 with
  | none => none
  | some (msg, r18) =>
  if r18 = [] then
    some ⟨st, saton, sanpi, sa, daton, danpi, da, esm, pid, pf, sdt, vp,
          rd, rip, dc, smi, msg⟩
  else none

/-- Parses a submit-response body. -/
def decodeSubmitSmRespBody (bs : List Nat) : Option SubmitSmRespBody :=
  match readCString bs with
  | none => none
  | some (mid, r1) =>
  if r1 = [] then some ⟨mid⟩ else none

/-- Modelled from the spec: body parsing dispatched on `command_id`; an
unrecognized identifier fails with `UnknownCommand` carrying the
identifier (§4.1). -/
def decodeBody (cmd : Nat) (bs : List Nat) : Except PduError PduBody :=
  match cmd with
  | 0x00000001 =>
    match decodeBindBody bs with
    | some b => .ok (.Bind .receiver b)
    | none => .error .Truncated
  | 0x00000002 =>
    match decodeBindBody bs with
    | some b => .ok (.Bind .transmitter b)
    | none => .error .Truncated
  | 0x00000009 =>
    match decodeBindBody bs with
    | some b => .ok (.Bind .transceiver b)
    | none => .error .Truncated
  | 0x80000001 =>
    match decodeBindRespBody bs with
    | some b => .ok (.BindResp .receiver b)
    | none => .error .Truncated
  | 0x80000002 =>
    match decodeBindRespBody bs with
    | some b => .ok (.BindResp .transmitter b)
    | none => .error .Truncated
  | 0x80000009 =>
    match decodeBindRespBody bs with
    | some b => .ok (.BindResp .transceiver b)
    | none => .error .Truncated
  | 0x00000004 =>
    match decodeSmBody bs with
    | some b => .ok (.SubmitSm b)
    | none => .error .Truncated
  | 0x80000004 =>
    match decodeSubmitSmRespBody bs with
    | some b => .ok (.SubmitSmResp b)
    | none => .error .Truncated
  | 0x00000005 =>
    match decodeSmBody bs with
    | some b => .ok (.DeliverSm b)
    | none => .error .Truncated
  | 0x00000015 => if bs = [] then .ok .EnquireLink else .error .LengthMismatch
  | 0x80000015 => if bs = [] then .ok .EnquireLinkResp else .error .LengthMismatch
  | 0x00000006 => if bs = [] then .ok .Unbind else .error .LengthMismatch
  | 0x80000006 => if bs = [] then .ok .UnbindResp else .error .LengthMismatch
  | c => .error (.UnknownCommand c)

/-- Modelled from the spec: `decode(bytes) → Pdu`, failing with
`Truncated` below 16 bytes or when the declared `command_length` exceeds
the bytes supplied, and with `LengthMismatch` when it disagrees with the
bytes supplied (§4.1, §8).  Every read is bounds-checked, so no input can
cause an out-of-range access. -/
def decode (data : List Nat) : Except PduError Pdu :=
  if data.length < 16 then .error .Truncated
  else if data.length < declared_command_length data then .error .Truncated
  else if declared_command_length data ≠ data.length then .error .LengthMismatch
  else
    match decodeBody (beAt data 4) (data.drop 16) with
    | .ok body => .ok ⟨beAt data 8, beAt data 12, body⟩
    | .error e => .error e

/-- Helper: a string passing `cstrOk` contains no NUL byte. -/
theorem cstrOk_no_zero (s : List Nat) (h : cstrOk s = true) :
    ∀ b ∈ s, b ≠ 0 := by
  intro b hb
  simp only [cstrOk, List.all_eq_true, Bool.and_eq_true, decide_eq_true_eq] at h
  have := (h b hb).1
  omega

/-- Helper: reading back an encoded C string yields the string and the
remaining bytes, provided the string holds no NUL byte. -/
theorem readCString_encode (s : List Nat) :
    ∀ rest, (∀ b ∈ s, b ≠ 0) →
      readCString (cstr s ++ rest) = some (s, rest) := by
  induction s with
  | nil => intro rest h; simp [cstr, readCString]
  | cons b t ih =>
    intro rest h
    have hb : b ≠ 0 := h b (List.mem_cons_self b t)
    have hc : cstr (b :: t) ++ rest = b :: (cstr t ++ rest) := by simp [cstr]
    rw [hc]
    simp only [readCString, if_neg hb]
    rw [ih rest (fun x hx => h x (List.mem_cons_of_mem b hx))]
    rfl

/-- Helper: reading back a fixed-length byte block yields the block and
the remaining bytes. -/
theorem readBytes_encode (s : List Nat) :
    ∀ rest, readBytes s.length (s ++ rest) = some (s, rest) := by
  induction s with
  | nil => intro rest; rfl
  | cons b t ih =>
    intro rest
    rw [List.cons_append]
    show (readBytes t.length (t ++ rest)).map (fun p => (b :: p.1, p.2)) =
      some (b :: t, rest)
    rw [ih rest]
    rfl

/-- Helper: recombining the four big-endian bytes of a `u32` value
restores the value. -/
theorem be_recombine (n : Nat) (h : n < 4294967296) :
    ((n / 16777216 % 256 * 256 + n / 65536 % 256) * 256 + n / 256 % 256) *
      256 + n % 256 = n := by
  omega

/-- Helper: the four header words of a serialized PDU, read back byte by
byte. -/
theorem beAt_header (A B C D : Nat) (body : List Nat) :
    beAt (u32be A ++ u32be B ++ u32be C ++ u32be D ++ body) 0 =
      ((A / 16777216 % 256 * 256 + A / 65536 % 256) * 256 + A / 256 % 256) *
        256 + A % 256 ∧
    beAt (u32be A ++ u32be B ++ u32be C ++ u32be D ++ body) 4 =
      ((B / 16777216 % 256 * 256 + B / 65536 % 256) * 256 + B / 256 % 256) *
        256 + B % 256 ∧
    beAt (u32be A ++ u32be B ++ u32be C ++ u32be D ++ body) 8 =
      ((C / 16777216 % 256 * 256 + C / 65536 % 256) * 256 + C / 256 % 256) *
        256 + C % 256 ∧
    beAt (u32be A ++ u32be B ++ u32be C ++ u32be D ++ body) 12 =
      ((D / 16777216 % 256 * 256 + D / 65536 % 256) * 256 + D / 256 % 256) *
        256 + D % 256 :=
  ⟨rfl, rfl, rfl, rfl⟩

/-- Helper: dropping the 16 header bytes of a serialized PDU leaves the
body. -/
theorem drop16_header (A B C D : Nat) (body : List Nat) :
    (u32be A ++ u32be B ++ u32be C ++ u32be D ++ body).drop 16 = body := rfl

/-- Helper: a serialized PDU is 16 header bytes plus the body. -/
theorem length_header (A B C D : Nat) (body : List Nat) :
    (u32be A ++ u32be B ++ u32be C ++ u32be D ++ body).length =
      16 + body.length := by
  simp [u32be]
  omega

/-- Helper: the serialized body of every representable PDU stays well
below the `u32` range. -/
theorem encodeBody_length_le (b : PduBody) (h : fieldLenOk b = true) :
    (encodeBody b).length ≤ 500 := by
  cases b with
  | Bind m bd =>
    simp only [fieldLenOk, Bool.and_eq_true, decide_eq_true_eq] at h
    obtain ⟨⟨⟨hs, hp⟩, ht⟩, ha⟩ := h
    simp [encodeBody, encodeBindBody, cstr]
    omega
  | BindResp m bd =>
    simp only [fieldLenOk, decide_eq_true_eq] at h
    simp [encodeBody, cstr]
    omega
  | SubmitSm bd =>
    simp only [fieldLenOk, Bool.and_eq_true, decide_eq_true_eq] at h
    obtain ⟨⟨⟨⟨⟨h1, h2⟩, h3⟩, h4⟩, h5⟩, h6⟩ := h
    simp [encodeBody, encodeSmBody, cstr]
    omega
  | SubmitSmResp bd =>
    simp only [fieldLenOk, decide_eq_true_eq] at h
    simp [encodeBody, cstr]
    omega
  | DeliverSm bd =>
    simp only [fieldLenOk, Bool.and_eq_true, decide_eq_true_eq] at h
    obtain ⟨⟨⟨⟨⟨h1, h2⟩, h3⟩, h4⟩, h5⟩, h6⟩ := h
    simp [encodeBody, encodeSmBody, cstr]
    omega
  | EnquireLink => simp [encodeBody]
  | EnquireLinkResp => simp [encodeBody]
  | Unbind => simp [encodeBody]
  | UnbindResp => simp [encodeBody]

/-- Helper: every command identifier value is below the `u32` range. -/
theorem command_id_lt (b : PduBody) : b.command_id < 4294967296 := by
  cases b with
  | Bind m bd => cases m <;> norm_num [PduBody.command_id, BindMode.cmdCode]
  | BindResp m bd =>
    cases m <;> norm_num [PduBody.command_id, BindMode.respCmdCode]
  | SubmitSm bd => norm_num [PduBody.command_id]
  | SubmitSmResp bd => norm_num [PduBody.command_id]
  | DeliverSm bd => norm_num [PduBody.command_id]
  | EnquireLink => decide
  | EnquireLinkResp => decide
  | Unbind => decide
  | UnbindResp => decide

/-- Helper: decoding an encoded bind body restores it. -/
theorem decodeBindBody_encode (b : BindBody)
    (h1 : cstrOk b.system_id = true) (h2 : cstrOk b.password = true)
    (h3 : cstrOk b.system_type = true) (h4 : cstrOk b.address_range = true) :
    decodeBindBody (encodeBindBody b) = some b := by
  have z1 : ∀ rest, readCString (cstr b.system_id ++ rest) =
      some (b.system_id, rest) :=
    fun rest => readCString_encode b.system_id rest (cstrOk_no_zero _ h1)
  have z2 : ∀ rest, readCString (cstr b.password ++ rest) =
      some (b.password, rest) :=
    fun rest => readCString_encode b.password rest (cstrOk_no_zero _ h2)
  have z3 : ∀ rest, readCString (cstr b.system_type ++ rest) =
      some (b.system_type, rest) :=
    fun rest => readCString_encode b.system_type rest (cstrOk_no_zero _ h3)
  have z4 : readCString (cstr b.address_range) =
      some (b.address_range, []) := by
    have := readCString_encode b.address_range [] (cstrOk_no_zero _ h4)
    rwa [List.append_nil] at this
  simp [decodeBindBody, encodeBindBody, List.append_assoc, z1, z2, z3, z4,
    readU8]

/-- Helper: decoding an encoded bind-response body restores it. -/
theorem decodeBindRespBody_encode (b : BindRespBody)
    (h1 : cstrOk b.system_id = true) :
    decodeBindRespBody (cstr b.system_id) = some b := by
  have z1 : readCString (cstr b.system_id) = some (b.system_id, []) := by
    have := readCString_encode b.system_id [] (cstrOk_no_zero _ h1)
    rwa [List.append_nil] at this
  simp [decodeBindRespBody, z1]

/-- Helper: decoding an encoded submit-response body restores it. -/
theorem decodeSubmitSmRespBody_encode (b : SubmitSmRespBody)
    (h1 : cstrOk b.message_id = true) :
    decodeSubmitSmRespBody (cstr b.message_id) = some b := by
  have z1 : readCString (cstr b.message_id) = some (b.message_id, []) := by
    have := readCString_encode b.message_id [] (cstrOk_no_zero _ h1)
    rwa [List.append_nil] at this
  simp [decodeSubmitSmRespBody, z1]

/-- Helper: decoding an encoded submit/deliver body restores it. -/
theorem decodeSmBody_encode (b : SmBody) (h : smWf b = true) :
    decodeSmBody (encodeSmBody b) = some b := by
  simp only [smWf, Bool.and_eq_true] at h
  obtain ⟨⟨⟨⟨⟨⟨⟨⟨⟨⟨⟨⟨⟨⟨⟨⟨hst, hsaton⟩, hsanpi⟩, hsa⟩, hdaton⟩, hdanpi⟩,
    hda⟩, hesm⟩, hpid⟩, hpf⟩, hsdt⟩, hvp⟩, hrd⟩, hrip⟩, hdc⟩, hsmi⟩,
    hall⟩ := h
  have z1 : ∀ rest, readCString (cstr b.service_type ++ rest) =
      some (b.service_type, rest) :=
    fun rest => readCString_encode b.service_type rest (cstrOk_no_zero _ hst)
  have z2 : ∀ rest, readCString (cstr b.source_addr ++ rest) =
      some (b.source_addr, rest) :=
    fun rest => readCString_encode b.source_addr rest (cstrOk_no_zero _ hsa)
  have z3 : ∀ rest, readCString (cstr b.destination_addr ++ rest) =
      some (b.destination_addr, rest) :=
    fun rest => readCString_encode b.destination_addr rest (cstrOk_no_zero _ hda)
  have z4 : ∀ rest, readCString (cstr b.schedule_delivery_time ++ rest) =
      some (b.schedule_delivery_time, rest) :=
    fun rest =>
      readCString_encode b.schedule_delivery_time rest (cstrOk_no_zero _ hsdt)
  have z5 : ∀ rest, readCString (cstr b.validity_period ++ rest) =
      some (b.validity_period, rest) :=
    fun rest => readCString_encode b.validity_period rest (cstrOk_no_zero _ hvp)
  have z6 : readBytes b.short_message.length b.short_message =
      some (b.short_message, []) := by
    have := readBytes_encode b.short_message []
    rwa [List.append_nil] at this
  simp [decodeSmBody, encodeSmBody, List.append_assoc, z1, z2, z3, z4, z5,
    z6, readU8]

/-- Helper: decoding an encoded body under its own command identifier
restores the body, for every PDU kind. -/
theorem decodeBody_encode (b : PduBody) (h : bodyWf b = true) :
    decodeBody b.command_id (encodeBody b) = .ok b := by
  cases b with
  | Bind m bd =>
    simp only [bodyWf, Bool.and_eq_true] at h
    obtain ⟨⟨⟨⟨⟨⟨h1, h2⟩, h3⟩, hiv⟩, hton⟩, hnpi⟩, h4⟩ := h
    have hd := decodeBindBody_encode bd h1 h2 h3 h4
    cases m with
    | receiver =>
      have hc : (PduBody.Bind BindMode.receiver bd).command_id = 1 := rfl
      have he : encodeBody (PduBody.Bind BindMode.receiver bd) =
        encodeBindBody bd := rfl
      have e : ∀ bs, decodeBody 1 bs =
          (match decodeBindBody bs with
           | some x => Except.ok (PduBody.Bind BindMode.receiver x)
           | none => Except.error PduError.Truncated) := fun bs => rfl
      rw [hc, he, e, hd]
    | transmitter =>
      have hc : (PduBody.Bind BindMode.transmitter bd).command_id = 2 := rfl
      have he : encodeBody (PduBody.Bind BindMode.transmitter bd) =
        encodeBindBody bd := rfl
      have e : ∀ bs, decodeBody 2 bs =
          (match decodeBindBody bs with
           | some x => Except.ok (PduBody.Bind BindMode.transmitter x)
           | none => Except.error PduError.Truncated) := fun bs => rfl
      rw [hc, he, e, hd]
    | transceiver =>
      have hc : (PduBody.Bind BindMode.transceiver bd).command_id = 9 := rfl
      have he : encodeBody (PduBody.Bind BindMode.transceiver bd) =
        encodeBindBody bd := rfl
      have e : ∀ bs, decodeBody 9 bs =
          (match decodeBindBody bs with
           | some x => Except.ok (PduBody.Bind BindMode.transceiver x)
           | none => Except.error PduError.Truncated) := fun bs => rfl
      rw [hc, he, e, hd]
  | BindResp m bd =>
    simp only [bodyWf] at h
    have hd := decodeBindRespBody_encode bd h
    cases m with
    | receiver =>
      have hc : (PduBody.BindResp BindMode.receiver bd).command_id =
        0x80000001 := rfl
      have he : encodeBody (PduBody.BindResp BindMode.receiver bd) =
        cstr bd.system_id := rfl
      have e : ∀ bs, decodeBody 0x80000001 bs =
          (match decodeBindRespBody bs with
           | some x => Except.ok (PduBody.BindResp BindMode.receiver x)
           | none => Except.error PduError.Truncated) := fun bs => rfl
      rw [hc, he, e, hd]
    | transmitter =>
      have hc : (PduBody.BindResp BindMode.transmitter bd).command_id =
        0x80000002 := rfl
      have he : encodeBody (PduBody.BindResp BindMode.transmitter bd) =
        cstr bd.system_id := rfl
      have e : ∀ bs, decodeBody 0x80000002 bs =
          (match decodeBindRespBody bs with
           | some x => Except.ok (PduBody.BindResp BindMode.transmitter x)
           | none => Except.error PduError.Truncated) := fun bs => rfl
      rw [hc, he, e, hd]
    | transceiver =>
      have hc : (PduBody.BindResp BindMode.transceiver bd).command_id =
        0x80000009 := rfl
      have he : encodeBody (PduBody.BindResp BindMode.transceiver bd) =
        cstr bd.system_id := rfl
      have e : ∀ bs, decodeBody 0x80000009 bs =
          (match decodeBindRespBody bs with
           | some x => Except.ok (PduBody.BindResp BindMode.transceiver x)
           | none => Except.error PduError.Truncated) := fun bs => rfl
      rw [hc, he, e, hd]
  | SubmitSm bd =>
    have hd := decodeSmBody_encode bd (by simpa [bodyWf] using h)
    have hc : (PduBody.SubmitSm bd).command_id = 4 := rfl
    have he : encodeBody (PduBody.SubmitSm bd) = encodeSmBody bd := rfl
    have e : ∀ bs, decodeBody 4 bs =
        (match decodeSmBody bs with
         | some x => Except.ok (PduBody.SubmitSm x)
         | none => Except.error PduError.Truncated) := fun bs => rfl
    rw [hc, he, e, hd]
  | SubmitSmResp bd =>
    have hd := decodeSubmitSmRespBody_encode bd (by simpa [bodyWf] using h)
    have hc : (PduBody.SubmitSmResp bd).command_id = 0x80000004 := rfl
    have he : encodeBody (PduBody.SubmitSmResp bd) = cstr bd.message_id := rfl
    have e : ∀ bs, decodeBody 0x80000004 bs =
        (match decodeSubmitSmRespBody bs with
         | some x => Except.ok (PduBody.SubmitSmResp x)
         | none => Except.error PduError.Truncated) := fun bs => rfl
    rw [hc, he, e, hd]
  | DeliverSm bd =>
    have hd := decodeSmBody_encode bd (by simpa [bodyWf] using h)
    have hc : (PduBody.DeliverSm bd).command_id = 5 := rfl
    have he : encodeBody (PduBody.DeliverSm bd) = encodeSmBody bd := rfl
    have e : ∀ bs, decodeBody 5 bs =
        (match decodeSmBody bs with
         | some x => Except.ok (PduBody.DeliverSm x)
         | none => Except.error PduError.Truncated) := fun bs => rfl
    rw [hc, he, e, hd]
  | EnquireLink =>
    have hc : (PduBody.EnquireLink).command_id = 0x15 := rfl
    have he : encodeBody PduBody.EnquireLink = [] := rfl
    have e : decodeBody 0x15 [] = .ok PduBody.EnquireLink := rfl
    rw [hc, he, e]
  | EnquireLinkResp =>
    have hc : (PduBody.EnquireLinkResp).command_id = 0x80000015 := rfl
    have he : encodeBody PduBody.EnquireLinkResp = [] := rfl
    have e : decodeBody 0x80000015 [] = .ok PduBody.EnquireLinkResp := rfl
    rw [hc, he, e]
  | Unbind =>
    have hc : (PduBody.Unbind).command_id = 6 := rfl
    have he : encodeBody PduBody.Unbind = [] := rfl
    have e : decodeBody 6 [] = .ok PduBody.Unbind := rfl
    rw [hc, he, e]
  | UnbindResp =>
    have hc : (PduBody.UnbindResp).command_id = 0x80000006 := rfl
    have he : encodeBody PduBody.UnbindResp = [] := rfl
    have e : decodeBody 0x80000006 [] = .ok PduBody.UnbindResp := rfl
    rw [hc, he, e]

/-- C5: for every input buffer whose declared `command_length` exceeds the
number of bytes supplied — including any buffer shorter than the 16-byte
header — `decode` fails with `Truncated`; every read in the codec is
bounds-checked, so no input reaches outside the supplied buffer. -/
theorem decode_truncated_on_short_input (data : List Nat)
    (h : data.length < 16 ∨ data.length < declared_command_length data) :
    decode data = .error .Truncated := by
  unfold decode
  rcases h with h | h
  · rw [if_pos h]
  · by_cases h16 : data.length < 16
    · rw [if_pos h16]
    · rw [if_neg h16, if_pos h]

/-- A 16-byte frame whose declared `command_length` is 17: one byte more
than is supplied. -/
def c5Frame : List Nat :=
  [0, 0, 0, 17, 0, 0, 0, 4, 0, 0, 0, 0, 0, 0, 0, 1]

/-- Witness for C5: the empty buffer (shorter than the header) and a
16-byte buffer declaring 17 bytes both decode to `Truncated`. -/
theorem decode_truncated_on_short_input_witness :
    (([] : List Nat).length < 16 ∨
      ([] : List Nat).length < declared_command_length []) ∧
    decode [] = .error .Truncated ∧
    (c5Frame.length < 16 ∨ c5Frame.length < declared_command_length c5Frame) ∧
    decode c5Frame = .error .Truncated :=
  ⟨Or.inl (by decide),
   decode_truncated_on_short_input [] (Or.inl (by decide)),
   Or.inr (by decide),
   decode_truncated_on_short_input c5Frame (Or.inr (by decide))⟩

/-- C1: for every well-formed PDU `p` — strings free of NUL and within
their maximum widths, bytes representable, `short_message` at most 254
octets — encoding succeeds with the serialized bytes and decoding those
bytes restores `p` exactly: `decode (encode p) = p`. -/
theorem pdu_roundtrip (p : Pdu) (h : pduWf p = true) :
    encode p = .ok (rawEncode p) ∧ decode (rawEncode p) = .ok p := by
  simp only [pduWf, Bool.and_eq_true, decide_eq_true_eq] at h
  obtain ⟨⟨⟨hbody, hflen⟩, hcs⟩, hsq⟩ := h
  refine ⟨by simp [encode, hflen], ?_⟩
  have hLb := encodeBody_length_le p.body hflen
  have hcid_lt := command_id_lt p.body
  have hre : rawEncode p =
      u32be (16 + (encodeBody p.body).length) ++ u32be p.body.command_id ++
      u32be p.command_status ++ u32be p.sequence_number ++
      encodeBody p.body := rfl
  obtain ⟨e0, e4, e8, e12⟩ := beAt_header (16 + (encodeBody p.body).length)
    p.body.command_id p.command_status p.sequence_number (encodeBody p.body)
  have d0 : declared_command_length (rawEncode p) =
      16 + (encodeBody p.body).length := by
    rw [declared_command_length, hre, e0]
    exact be_recombine _ (by omega)
  have d4 : beAt (rawEncode p) 4 = p.body.command_id := by
    rw [hre, e4]
    exact be_recombine _ hcid_lt
  have d8 : beAt (rawEncode p) 8 = p.command_status := by
    rw [hre, e8]
    exact be_recombine _ hcs
  have d12 : beAt (rawEncode p) 12 = p.sequence_number := by
    rw [hre, e12]
    exact be_recombine _ hsq
  have hlen : (rawEncode p).length = 16 + (encodeBody p.body).length := by
    rw [hre]
    exact length_header _ _ _ _ _
  have hdrop : (rawEncode p).drop 16 = encodeBody p.body := by
    rw [hre]
    exact drop16_header _ _ _ _ _
  unfold decode
  rw [if_neg (by omega), d0, if_neg (by rw [hlen]; omega),
    if_neg (by rw [hlen]; omega), d4, d8, d12, hdrop,
    decodeBody_encode p.body hbody]

/-- A `SubmitSm` PDU with every string field at its maximum width and a
`short_message` of exactly 254 octets. -/
def c1MaxPdu : Pdu :=
  ⟨0, 2147483647,
   .SubmitSm ⟨List.replicate 5 65, 1, 1, List.replicate 20 49, 1, 1,
     List.replicate 20 50, 64, 1, 1, List.replicate 16 51,
     List.replicate 16 52, 1, 0, 8, 3, List.replicate 254 255⟩⟩

/-- A `SubmitSm` PDU with empty string fields and a `short_message` of 0
octets. -/
def c1EmptyPdu : Pdu :=
  ⟨0, 1, .SubmitSm ⟨[], 0, 0, [], 1, 1, [], 0, 0, 0, [], [], 1, 0, 0, 0, []⟩⟩

set_option maxRecDepth 40000 in
/-- Witness for C1: the round trip applied to a maximum-width submit PDU
carrying 254 octets and to one carrying 0 octets. -/
theorem pdu_roundtrip_witness :
    pduWf c1MaxPdu = true ∧
    (encode c1MaxPdu = .ok (rawEncode c1MaxPdu) ∧
      decode (rawEncode c1MaxPdu) = .ok c1MaxPdu) ∧
    pduWf c1EmptyPdu = true ∧
    (encode c1EmptyPdu = .ok (rawEncode c1EmptyPdu) ∧
      decode (rawEncode c1EmptyPdu) = .ok c1EmptyPdu) :=
  ⟨by decide, pdu_roundtrip c1MaxPdu (by decide),
   by decide, pdu_roundtrip c1EmptyPdu (by decide)⟩
